import Mathlib

/-!
Verification of the s3bench benchmark tool (src/s3bench.py).

The program is a configuration loader, a timed-call loop and a statistics
formatter.  We give a shallow embedding:

* durations (Python floats) are modelled as rationals `ℚ`; the one
  irrational quantity, the standard deviation, lives in `ℝ`;
* the parsed YAML configuration file is an association list
  `List (String × String)`;
* Python exceptions are the inductive `PyErr`; fallible functions return
  `Except PyErr _`;
* the wall clock `time.time()` is an oracle `clock : Nat → ℚ` giving the
  value returned by the n-th call to `time.time()` during the run;
* the outcome of the benchmarked storage call on iteration `k` is an
  oracle `opB : Nat → Except PyErr Unit` (the network is external);
* standard output is a list of `Line` events, one per `print` call
  (every `print` in the source ends with a newline: the per-iteration
  header passes `end=None`, which the Python `print` builtin treats as the default
  newline), except that the seven `print` calls of `print_results` are
  bundled into the single `Line.report` event.
-/

namespace S3Bench

/-- Python exceptions that the program can raise. -/
inductive PyErr where
  /-- `NameError`: raised by `get_or_die` because it references the
  undefined name `self` (`self._fail(...)` inside a plain function). -/
  | nameError (msg : String)
  /-- `ValueError`: raised by `min()` / `max()` on an empty sequence. -/
  | valueError (msg : String)
  /-- `KeyError`: raised by a failed dictionary lookup. -/
  | keyError (key : String)
  /-- `SystemExit` from argparse: usage error, exit status 2. -/
  | argumentError (msg : String)
  /-- Any failure raised by the underlying storage call. -/
  | storageError (msg : String)
deriving DecidableEq

/-- The `Config` NamedTuple of the source.  The source field `prefix` is a
reserved word here and is called `pfx`; `endpoint` defaults to the Python
value `None`, hence `Option String`. -/
structure Config where
  region : String
  bucket : String
  pfx : String
  endpoint : Option String
deriving DecidableEq

/-- The `Stats` NamedTuple of the source. -/
structure Stats where
  min : ℚ
  mean : ℚ
  max : ℚ
  stddev : ℝ

/-- A pyarrow `fs.FileSelector(base_path, recursive=True)` request. -/
structure FileSelector where
  base_dir : String
  recursive : Bool
deriving DecidableEq

/-- One unit of standard output.  `header`/`elapsed` are the two `print`
calls of `run_benchmark_once` (the header is printed with `end=None`,
i.e. the default newline, so it is a line of its own); `banner` is the
`Starting benchmark:` line; `report` stands for the seven lines printed
by `print_results`. -/
inductive Line where
  | banner (op : String)
  | header (k : Nat)
  | elapsed (t : ℚ)
  | report (op : String) (bucket : String) (pfx : String) (stats : Stats)

/-- Is this line part of the per-iteration progress output? -/
def Line.isProgress : Line → Bool
  | .header _ => true
  | .elapsed _ => true
  | _ => false

/-- Is this line the final report block? -/
def Line.isReport : Line → Bool
  | .report _ _ _ _ => true
  | _ => false

/-- `get_or_die(obj, attr)`: returns `obj[attr]` when present; otherwise
it evaluates `self._fail(...)` where `self` is undefined in the plain
function, so Python raises `NameError`, not a configuration error. -/
def get_or_die (obj : List (String × String)) (attr : String) :
    Except PyErr String :=
  match obj.lookup attr with
  | some v => .ok v
  | none => .error (.nameError "self is not defined")

/-- `get_or_else(obj, attr, default)` for a string default. -/
def get_or_else (obj : List (String × String)) (attr : String)
    (dflt : String) : String :=
  (obj.lookup attr).getD dflt

/-- `get_or_else(obj, attr, None)`: the default `None` makes the result
optional; present keys give `some value`, absent keys give `none`. -/
def get_or_else_none (obj : List (String × String)) (attr : String) :
    Option String :=
  obj.lookup attr

/-- `load_config`, applied to the parsed key/value mapping of the file. -/
def load_config (obj : List (String × String)) : Except PyErr Config :=
  let region := get_or_else obj "region" "us-east-1"
  match get_or_die obj "bucket" with
  | .error e => .error e
  | .ok bucket =>
      .ok { region := region
            bucket := bucket
            pfx := get_or_else obj "prefix" ""
            endpoint := get_or_else_none obj "endpoint" }

/-- `list_all(filesystem, config)`: builds `base_path` as the bucket,
extended by `"/" + prefix` when the prefix is truthy (non-empty), and
issues one recursive `get_file_info` request.  The returned metadata is
discarded by the source, so the model returns only the list of issued
requests. -/
def list_all (cfg : Config) : List FileSelector :=
  let base_path := cfg.bucket
  let base_path := if cfg.pfx ≠ "" then base_path ++ "/" ++ cfg.pfx else base_path
  [{ base_dir := base_path, recursive := true }]

/-- The operation registry of the source: one entry, mapping the name
`list_all` to the function `list_all`. -/
def operations : List (String × (Config → List FileSelector)) :=
  [("list_all", list_all)]

/-- `sorted(operations.keys())`, the argparse `choices` list. -/
def argNames : List String := ["list_all"]

/-- Python `min(times)`: raises `ValueError` on an empty sequence,
otherwise folds binary `min` over the list. -/
def pyMin (l : List ℚ) : Except PyErr ℚ :=
  match l with
  | [] => .error (.valueError "min() arg is an empty sequence")
  | x :: xs => .ok (xs.foldl min x)

/-- Python `max(times)`: raises `ValueError` on an empty sequence,
otherwise folds binary `max` over the list. -/
def pyMax (l : List ℚ) : Except PyErr ℚ :=
  match l with
  | [] => .error (.valueError "max() arg is an empty sequence")
  | x :: xs => .ok (xs.foldl max x)

/-- `calculate_stats(times)`: `min(times)` is evaluated first (and is the
first to raise on an empty list), then `max(times)`, then the arithmetic
mean `sum(times)/len(times)` and the population standard deviation
`sqrt(sum((t - mean)**2 for t in times)/len(times))`. -/
noncomputable def calculate_stats (times : List ℚ) : Except PyErr Stats :=
  match pyMin times, pyMax times with
  | .ok minimum, .ok maximum =>
      let mean : ℚ := times.sum / (times.length : ℚ)
      .ok { min := minimum
            mean := mean
            max := maximum
            stddev :=
              Real.sqrt
                ((((times.map fun t => (t - mean) ^ 2).sum /
                    (times.length : ℚ) : ℚ) : ℝ)) }
  | .error e, _ => .error e
  | .ok _, .error e => .error e

/-- `print_results(operation, config, times)`: computes the statistics
(raising before printing anything when `times` is empty) and then prints
the seven-line report block. -/
noncomputable def print_results (operation : String) (cfg : Config)
    (times : List ℚ) : Except PyErr (List Line) :=
  match calculate_stats times with
  | .error e => .error e
  | .ok stats => .ok [Line.report operation cfg.bucket cfg.pfx stats]

/-- `run_benchmark_once(config, fs, op, itr_idx)` for iteration `k`: prints
the header (its own line, since `end=None` is the default newline), reads
the clock (call number `2*k`), invokes the operation (outcome `opB k`),
reads the clock again (call number `2*k+1`) and prints and returns the
elapsed time.  If the operation raises, only the header was printed. -/
def run_benchmark_once (opB : Nat → Except PyErr Unit) (clock : Nat → ℚ)
    (k : Nat) : List Line × Except PyErr ℚ :=
  match opB k with
  | .error e => ([Line.header k], .error e)
  | .ok _ =>
      ([Line.header k, Line.elapsed (clock (2 * k + 1) - clock (2 * k))],
       .ok (clock (2 * k + 1) - clock (2 * k)))

/-- The `for itr_idx in range(num_iters)` loop of `run_benchmark`:
`runLoop opB clock k r` runs iterations `k, k+1, ..., k+r-1`, returning
the printed lines, the collected samples, and the first error (the loop
aborts at the first raising iteration; samples of completed iterations
were already appended). -/
def runLoop (opB : Nat → Except PyErr Unit) (clock : Nat → ℚ) :
    Nat → Nat → List Line × List ℚ × Option PyErr
  | _, 0 => ([], [], none)
  | k, r + 1 =>
      match run_benchmark_once opB clock k with
      | (ls, .error e) => (ls, [], some e)
      | (ls, .ok t) =>
          let rest := runLoop opB clock (k + 1) r
          (ls ++ rest.1, t :: rest.2.1, rest.2.2)

/-- The observable outcome of a run: lines printed, timing samples
collected, whether `create_fs` (the storage client factory) was invoked,
and the uncaught exception, if any. -/
structure RunOut where
  lines : List Line
  times : List ℚ
  fsCreated : Bool
  err : Option PyErr

/-- `run_benchmark(config, operation, num_iters)`: creates the storage
client (`create_fs`), looks the operation up in the registry, prints the
banner, runs the loop (`range(num_iters)` is empty for a non-positive
count), and calls `print_results` on the collected samples. -/
noncomputable def run_benchmark (cfg : Config) (operation : String)
    (num_iters : Int) (opB : Nat → Except PyErr Unit) (clock : Nat → ℚ) :
    RunOut :=
  match operations.lookup operation with
  | none => { lines := [], times := [], fsCreated := true,
              err := some (.keyError operation) }
  | some _ =>
      let res := runLoop opB clock 0 num_iters.toNat
      match res.2.2 with
      | some e =>
          { lines := Line.banner operation :: res.1, times := res.2.1,
            fsCreated := true, err := some e }
      | none =>
          match print_results operation cfg res.2.1 with
          | .error e =>
              { lines := Line.banner operation :: res.1, times := res.2.1,
                fsCreated := true, err := some e }
          | .ok rls =>
              { lines := Line.banner operation :: res.1 ++ rls,
                times := res.2.1, fsCreated := true, err := none }

/-- `main()`: argparse validates the operation name against `choices`
(= `argNames`) and parses `--num_iters` with `type=int` — any integer,
including zero and negative values, is accepted.  Then `load_config`
runs, and only then `run_benchmark` (which creates the storage client).
`cfgDict` is the parsed contents of the configuration file. -/
noncomputable def main (cfgDict : List (String × String))
    (operation : String) (num_iters : Int)
    (opB : Nat → Except PyErr Unit) (clock : Nat → ℚ) : RunOut :=
  if operation ∈ argNames then
    match load_config cfgDict with
    | .error e => { lines := [], times := [], fsCreated := false,
                    err := some e }
    | .ok cfg => run_benchmark cfg operation num_iters opB clock
  else
    { lines := [], times := [], fsCreated := false,
      err := some (.argumentError operation) }

/-- Process exit status: 0 on success, 2 for an argparse usage error
(`SystemExit(2)`), 1 for any uncaught exception. -/
def exitCode (r : RunOut) : Nat :=
  match r.err with
  | none => 0
  | some (.argumentError _) => 2
  | some _ => 1

/-- The per-iteration progress lines for iterations `s, ..., s+n-1`
(two lines each: the header, printed with the default newline, and the
elapsed-seconds line). -/
def progressLines (clock : Nat → ℚ) : Nat → Nat → List Line
  | _, 0 => []
  | s, n + 1 =>
      Line.header s :: Line.elapsed (clock (2 * s + 1) - clock (2 * s)) ::
        progressLines clock (s + 1) n

/-- The timing samples of iterations `s, ..., s+n-1`. -/
def sampleTimes (clock : Nat → ℚ) : Nat → Nat → List ℚ
  | _, 0 => []
  | s, n + 1 =>
      (clock (2 * s + 1) - clock (2 * s)) :: sampleTimes clock (s + 1) n

/-! ### The fold-based minimum and maximum -/

theorem foldl_min_mem (x : ℚ) (xs : List ℚ) : xs.foldl min x ∈ x :: xs := by
  induction xs generalizing x with
  | nil => simp
  | cons y ys ih =>
      rw [List.foldl_cons]
      have h := ih (min x y)
      rw [List.mem_cons] at h
      rcases h with h | h
      · rw [h]
        rcases min_choice x y with hxy | hxy <;> rw [hxy] <;> simp
      · simp [h]

theorem foldl_min_le (x : ℚ) (xs : List ℚ) :
    ∀ t ∈ x :: xs, xs.foldl min x ≤ t := by
  induction xs generalizing x with
  | nil =>
      intro t ht
      rw [List.mem_singleton] at ht
      simp [ht]
  | cons y ys ih =>
      intro t ht
      rw [List.foldl_cons]
      rw [List.mem_cons, List.mem_cons] at ht
      rcases ht with h1 | h1 | h1
      · rw [h1]
        exact le_trans (ih (min x y) (min x y) (List.mem_cons_self _ _))
          (min_le_left x y)
      · rw [h1]
        exact le_trans (ih (min x y) (min x y) (List.mem_cons_self _ _))
          (min_le_right x y)
      · exact ih (min x y) t (List.mem_cons.mpr (Or.inr h1))

theorem foldl_max_mem (x : ℚ) (xs : List ℚ) : xs.foldl max x ∈ x :: xs := by
  induction xs generalizing x with
  | nil => simp
  | cons y ys ih =>
      rw [List.foldl_cons]
      have h := ih (max x y)
      rw [List.mem_cons] at h
      rcases h with h | h
      · rw [h]
        rcases max_choice x y with hxy | hxy <;> rw [hxy] <;> simp
      · simp [h]

theorem le_foldl_max (x : ℚ) (xs : List ℚ) :
    ∀ t ∈ x :: xs, t ≤ xs.foldl max x := by
  induction xs generalizing x with
  | nil =>
      intro t ht
      rw [List.mem_singleton] at ht
      simp [ht]
  | cons y ys ih =>
      intro t ht
      rw [List.foldl_cons]
      rw [List.mem_cons, List.mem_cons] at ht
      rcases ht with h1 | h1 | h1
      · rw [h1]
        exact le_trans (le_max_left x y)
          (ih (max x y) (max x y) (List.mem_cons_self _ _))
      · rw [h1]
        exact le_trans (le_max_right x y)
          (ih (max x y) (max x y) (List.mem_cons_self _ _))
      · exact ih (max x y) t (List.mem_cons.mpr (Or.inr h1))

theorem length_mul_le_sum (l : List ℚ) (m : ℚ) (h : ∀ t ∈ l, m ≤ t) :
    (l.length : ℚ) * m ≤ l.sum := by
  induction l with
  | nil => simp
  | cons x xs ih =>
      have hx := h x (List.mem_cons_self _ _)
      have hxs := ih fun t ht => h t (List.mem_cons.mpr (Or.inr ht))
      simp only [List.length_cons, List.sum_cons]
      push_cast
      have hr : ((xs.length : ℚ) + 1) * m = (xs.length : ℚ) * m + m := by ring
      linarith

theorem sum_le_length_mul (l : List ℚ) (m : ℚ) (h : ∀ t ∈ l, t ≤ m) :
    l.sum ≤ (l.length : ℚ) * m := by
  induction l with
  | nil => simp
  | cons x xs ih =>
      have hx := h x (List.mem_cons_self _ _)
      have hxs := ih fun t ht => h t (List.mem_cons.mpr (Or.inr ht))
      simp only [List.length_cons, List.sum_cons]
      push_cast
      have hr : ((xs.length : ℚ) + 1) * m = (xs.length : ℚ) * m + m := by ring
      linarith

/-! ### Claim theorems: configuration loading and the operation registry -/

/-- C2: for every parsed configuration mapping containing the key
`bucket`, `load_config` succeeds with that bucket, and with `region`,
`prefix` and `endpoint` equal to the values in the file when present and
to the defaults `"us-east-1"`, `""` and `none` (no endpoint override)
otherwise (`Option.getD` is exactly present-or-default, and the endpoint
is `none` exactly when the key is absent). -/
theorem load_config_defaults (obj : List (String × String)) (b : String)
    (hb : obj.lookup "bucket" = some b) :
    load_config obj = .ok
      { region := (obj.lookup "region").getD "us-east-1"
        bucket := b
        pfx := (obj.lookup "prefix").getD ""
        endpoint := obj.lookup "endpoint" } := by
  simp [load_config, get_or_die, get_or_else, get_or_else_none, hb]

/-- Witness for C2 at a concrete mapping with `bucket` and `endpoint`
present and `region` and `prefix` absent. -/
theorem load_config_defaults_witness :
    load_config [("bucket", "my-bucket"), ("endpoint", "http://localhost:9000")] =
      .ok { region := "us-east-1", bucket := "my-bucket", pfx := "",
            endpoint := some "http://localhost:9000" } := by
  have h := load_config_defaults
    [("bucket", "my-bucket"), ("endpoint", "http://localhost:9000")]
    "my-bucket" (by rfl)
  simpa using h

/-- C3 (evaluation of the code at the failing input): on a configuration
mapping without the key `bucket`, `load_config` raises `NameError` — the
undefined `self` in `get_or_die` — rather than a dedicated configuration
error; the failure does occur before the storage client is created
(`fsCreated = false`) and terminates the process with a non-zero status. -/
theorem missing_bucket_raises_name_error :
    load_config [("region", "us-west-2")] =
      .error (PyErr.nameError "self is not defined") ∧
    (main [("region", "us-west-2")] "list_all" 10 (fun _ => .ok ())
        (fun n => (n : ℚ))).err = some (PyErr.nameError "self is not defined") ∧
    (main [("region", "us-west-2")] "list_all" 10 (fun _ => .ok ())
        (fun n => (n : ℚ))).fsCreated = false ∧
    (main [("region", "us-west-2")] "list_all" 10 (fun _ => .ok ())
        (fun n => (n : ℚ))).lines = [] ∧
    exitCode (main [("region", "us-west-2")] "list_all" 10 (fun _ => .ok ())
        (fun n => (n : ℚ))) = 1 := by
  refine ⟨rfl, ?_, ?_, ?_, ?_⟩ <;> rfl

/-- C9: the single registered operation is `list_all`; for every
configuration it issues exactly one recursive listing request, whose
path is the bucket alone when the prefix is empty and
`bucket ++ "/" ++ prefix` otherwise, and it returns nothing beyond
issuing that request. -/
theorem list_all_single_recursive_request (cfg : Config) :
    operations = [("list_all", list_all)] ∧
    list_all cfg =
      [{ base_dir := if cfg.pfx = "" then cfg.bucket
                     else cfg.bucket ++ "/" ++ cfg.pfx,
         recursive := true }] := by
  refine ⟨rfl, ?_⟩
  by_cases h : cfg.pfx = "" <;> simp [list_all, h]

/-- Witness for C9 at a concrete configuration with a non-empty prefix. -/
theorem list_all_single_recursive_request_witness :
    list_all { region := "us-east-1", bucket := "buck", pfx := "data",
               endpoint := none } =
      [{ base_dir := "buck/data", recursive := true }] := by
  have h := list_all_single_recursive_request
    { region := "us-east-1", bucket := "buck", pfx := "data", endpoint := none }
  simpa using h.2

/-! ### Statistics -/

theorem foldl_min_replicate (m : ℕ) (c : ℚ) :
    (List.replicate m c).foldl min c = c := by
  induction m with
  | zero => rfl
  | succ m ih => rw [List.replicate_succ, List.foldl_cons, min_self]; exact ih

theorem foldl_max_replicate (m : ℕ) (c : ℚ) :
    (List.replicate m c).foldl max c = c := by
  induction m with
  | zero => rfl
  | succ m ih => rw [List.replicate_succ, List.foldl_cons, max_self]; exact ih

theorem calculate_stats_cons (x : ℚ) (xs : List ℚ) :
    calculate_stats (x :: xs) =
      .ok { min := xs.foldl min x
            mean := (x :: xs).sum / ((x :: xs).length : ℚ)
            max := xs.foldl max x
            stddev := Real.sqrt
              (((((x :: xs).map fun t =>
                    (t - (x :: xs).sum / ((x :: xs).length : ℚ)) ^ 2).sum /
                  ((x :: xs).length : ℚ) : ℚ) : ℝ)) } := rfl

theorem mean_replicate (m : ℕ) (c : ℚ) :
    (c :: List.replicate m c).sum / ((c :: List.replicate m c).length : ℚ) = c := by
  have hne : ((m : ℚ) + 1) ≠ 0 := by positivity
  rw [List.sum_cons, List.sum_replicate, List.length_cons, List.length_replicate]
  push_cast
  rw [nsmul_eq_mul]
  field_simp
  ring

theorem calculate_stats_replicate (n : ℕ) (c : ℚ) (h : 0 < n) :
    calculate_stats (List.replicate n c) = .ok ⟨c, c, c, 0⟩ := by
  obtain ⟨m, rfl⟩ : ∃ m, n = m + 1 := ⟨n - 1, by omega⟩
  rw [List.replicate_succ, calculate_stats_cons]
  rw [mean_replicate]
  have hmap : ((c :: List.replicate m c).map fun t => (t - c) ^ 2) =
      List.replicate (m + 1) 0 := by
    rw [List.map_cons, List.map_replicate]
    simp [List.replicate_succ]
  rw [hmap]
  simp [List.sum_replicate, foldl_min_replicate, foldl_max_replicate]

theorem calculate_stats_example :
    calculate_stats [1, 2, 3] = .ok ⟨1, 2, 3, Real.sqrt ((2 : ℝ) / 3)⟩ := by
  rw [calculate_stats_cons]
  have hmin : ([2, 3] : List ℚ).foldl min 1 = 1 := by decide
  have hmax : ([2, 3] : List ℚ).foldl max 1 = 3 := by decide
  have hmean : (([1, 2, 3] : List ℚ).sum / ((([1, 2, 3] : List ℚ).length : ℚ)) : ℚ) = 2 := by
    norm_num
  have hvar : ((([1, 2, 3] : List ℚ).map fun t =>
      (t - ([1, 2, 3] : List ℚ).sum / ((([1, 2, 3] : List ℚ).length : ℚ))) ^ 2).sum /
      ((([1, 2, 3] : List ℚ).length : ℚ)) : ℚ) = 2 / 3 := by
    norm_num
  simp only [Except.ok.injEq, Stats.mk.injEq]
  refine ⟨hmin, hmean, hmax, ?_⟩
  rw [hvar]
  norm_num

/-- C1: for every non-empty list of durations, `calculate_stats` succeeds
with a record whose `min` is a smallest element of the list, whose `max`
is a largest element, whose `mean` is the arithmetic mean (sum divided by
N), and whose `stddev` is the population standard deviation (square root
of the sum of squared deviations from the mean divided by N); and at the
input `[1.0, 2.0, 3.0]` the result is min = 1, mean = 2, max = 3 and
stddev = sqrt(2/3). -/
theorem calculate_stats_spec (times : List ℚ) (h : times ≠ []) :
    (∃ s, calculate_stats times = .ok s ∧
      s.min ∈ times ∧ (∀ t ∈ times, s.min ≤ t) ∧
      s.max ∈ times ∧ (∀ t ∈ times, t ≤ s.max) ∧
      s.mean = times.sum / (times.length : ℚ) ∧
      s.stddev = Real.sqrt
        ((((times.map fun t => (t - s.mean) ^ 2).sum /
            (times.length : ℚ) : ℚ) : ℝ))) ∧
    calculate_stats [1, 2, 3] = .ok ⟨1, 2, 3, Real.sqrt ((2 : ℝ) / 3)⟩ := by
  constructor
  · cases times with
    | nil => exact absurd rfl h
    | cons x xs =>
        refine ⟨_, calculate_stats_cons x xs, ?_, ?_, ?_, ?_, rfl, rfl⟩
        · exact foldl_min_mem x xs
        · exact foldl_min_le x xs
        · exact foldl_max_mem x xs
        · exact le_foldl_max x xs
  · exact calculate_stats_example

/-- Witness for C1 at the concrete input `[4, 7]`. -/
theorem calculate_stats_spec_witness :
    (∃ s, calculate_stats [(4 : ℚ), 7] = .ok s ∧
      s.min ∈ [(4 : ℚ), 7] ∧ (∀ t ∈ [(4 : ℚ), 7], s.min ≤ t) ∧
      s.max ∈ [(4 : ℚ), 7] ∧ (∀ t ∈ [(4 : ℚ), 7], t ≤ s.max) ∧
      s.mean = ([(4 : ℚ), 7] : List ℚ).sum / ((([(4 : ℚ), 7] : List ℚ).length : ℚ)) ∧
      s.stddev = Real.sqrt
        (((((([(4 : ℚ), 7] : List ℚ).map fun t => (t - s.mean) ^ 2).sum /
            ((([(4 : ℚ), 7] : List ℚ).length : ℚ)) : ℚ) : ℝ)))) ∧
    calculate_stats [1, 2, 3] = .ok ⟨1, 2, 3, Real.sqrt ((2 : ℝ) / 3)⟩ :=
  calculate_stats_spec [4, 7] (by decide)

/-- C7: for every non-empty list of durations the statistics satisfy
min ≤ mean ≤ max and stddev ≥ 0, and for every list of N > 0 identical
values the standard deviation is 0. -/
theorem stats_min_le_mean_le_max :
    (∀ times : List ℚ, times ≠ [] →
      ∃ s, calculate_stats times = .ok s ∧
        s.min ≤ s.mean ∧ s.mean ≤ s.max ∧ 0 ≤ s.stddev) ∧
    (∀ (n : ℕ) (c : ℚ), 0 < n →
      ∃ s, calculate_stats (List.replicate n c) = .ok s ∧ s.stddev = 0) := by
  constructor
  · intro times h
    cases times with
    | nil => exact absurd rfl h
    | cons x xs =>
        refine ⟨_, calculate_stats_cons x xs, ?_, ?_, Real.sqrt_nonneg _⟩
        · have hlen : (0 : ℚ) < ((x :: xs).length : ℚ) := by
            rw [List.length_cons]; push_cast; positivity
          rw [le_div_iff₀ hlen, mul_comm]
          exact length_mul_le_sum (x :: xs) _ (foldl_min_le x xs)
        · have hlen : (0 : ℚ) < ((x :: xs).length : ℚ) := by
            rw [List.length_cons]; push_cast; positivity
          rw [div_le_iff₀ hlen, mul_comm]
          exact sum_le_length_mul (x :: xs) _ (le_foldl_max x xs)
  · intro n c hn
    exact ⟨⟨c, c, c, 0⟩, calculate_stats_replicate n c hn, rfl⟩

/-- Witness for C7 at the inputs `[3, 1, 2]` and `replicate 4 5`. -/
theorem stats_min_le_mean_le_max_witness :
    (∃ s, calculate_stats [(3 : ℚ), 1, 2] = .ok s ∧
      s.min ≤ s.mean ∧ s.mean ≤ s.max ∧ 0 ≤ s.stddev) ∧
    (∃ s, calculate_stats (List.replicate 4 (5 : ℚ)) = .ok s ∧ s.stddev = 0) :=
  ⟨stats_min_le_mean_le_max.1 [3, 1, 2] (by decide),
   stats_min_le_mean_le_max.2 4 5 (by decide)⟩

/-! ### Claims at the command-line boundary -/

/-- C4 (evaluation of the code at the failing input `--num_iters 0`): the
argument parser accepts the non-positive count — there is no usage
rejection — the configuration is loaded, the storage client is created
and the run proceeds with zero iterations; the program then crashes with
the `ValueError` raised by `min()` on the empty sample list (exit status
1, not a usage error). -/
theorem nonpositive_num_iters_accepted :
    (main [("bucket", "b")] "list_all" 0 (fun _ => .ok ())
        (fun n => (n : ℚ))).fsCreated = true ∧
    (main [("bucket", "b")] "list_all" 0 (fun _ => .ok ())
        (fun n => (n : ℚ))).lines = [Line.banner "list_all"] ∧
    (main [("bucket", "b")] "list_all" 0 (fun _ => .ok ())
        (fun n => (n : ℚ))).err =
      some (PyErr.valueError "min() arg is an empty sequence") ∧
    exitCode (main [("bucket", "b")] "list_all" 0 (fun _ => .ok ())
        (fun n => (n : ℚ))) = 1 := by
  refine ⟨rfl, rfl, rfl, rfl⟩

/-- C10: on the empty timing sequence `calculate_stats` raises (`min()`
of an empty sequence) instead of returning a record, and this error
branch is reachable from the command line, because argparse accepts
`--num_iters 0` and negative counts, which produce zero iterations. -/
theorem empty_times_error_reachable :
    calculate_stats [] =
      .error (PyErr.valueError "min() arg is an empty sequence") ∧
    (main [("bucket", "b")] "list_all" 0 (fun _ => .ok ())
        (fun n => (n : ℚ))).times = [] ∧
    (main [("bucket", "b")] "list_all" (-2) (fun _ => .ok ())
        (fun n => (n : ℚ))).err =
      some (PyErr.valueError "min() arg is an empty sequence") ∧
    (main [("bucket", "b")] "list_all" (-2) (fun _ => .ok ())
        (fun n => (n : ℚ))).times = [] := by
  refine ⟨rfl, rfl, rfl, rfl⟩

/-! ### The benchmark loop -/

theorem sampleTimes_eq_range (clock : Nat → ℚ) (n : Nat) : ∀ s,
    sampleTimes clock s n =
      (List.range n).map fun j =>
        clock (2 * (s + j) + 1) - clock (2 * (s + j)) := by
  induction n with
  | zero => intro s; rfl
  | succ n ih =>
      intro s
      rw [List.range_succ_eq_map, List.map_cons, List.map_map]
      simp only [sampleTimes]
      rw [ih (s + 1)]
      refine congrArg₂ List.cons rfl ?_
      refine List.map_congr_left ?_
      intro j hj
      have harr : s + 1 + j = s + (j + 1) := by omega
      simp only [Function.comp_apply, harr]

theorem sampleTimes_zero (clock : Nat → ℚ) (n : Nat) :
    sampleTimes clock 0 n =
      (List.range n).map fun j => clock (2 * j + 1) - clock (2 * j) := by
  rw [sampleTimes_eq_range]
  simp only [Nat.zero_add]

theorem progressLines_no_report (clock : Nat → ℚ) (n : Nat) : ∀ s,
    ∀ l ∈ progressLines clock s n, l.isReport = false := by
  induction n with
  | zero =>
      intro s l hl
      simp [progressLines] at hl
  | succ n ih =>
      intro s l hl
      simp only [progressLines, List.mem_cons] at hl
      rcases hl with h | h | h
      · rw [h]; rfl
      · rw [h]; rfl
      · exact ih (s + 1) l h

theorem runLoop_all_ok (opB : Nat → Except PyErr Unit) (clock : Nat → ℚ)
    (r : Nat) : ∀ s, (∀ i, i < r → opB (s + i) = .ok ()) →
    runLoop opB clock s r =
      (progressLines clock s r, sampleTimes clock s r, none) := by
  induction r with
  | zero => intro s _; rfl
  | succ r ih =>
      intro s h
      have h0 : opB s = .ok () := by simpa using h 0 (Nat.succ_pos r)
      have hsh : ∀ i, i < r → opB (s + 1 + i) = .ok () := by
        intro i hi
        have h2 := h (i + 1) (by omega)
        have harr : s + (i + 1) = s + 1 + i := by omega
        rwa [harr] at h2
      have ih1 := ih (s + 1) hsh
      simp only [runLoop, run_benchmark_once, h0, ih1]
      simp [progressLines, sampleTimes]

theorem runLoop_fail (opB : Nat → Except PyErr Unit) (clock : Nat → ℚ)
    (e : PyErr) (n : Nat) :
    ∀ s r, n < r → (∀ i, i < n → opB (s + i) = .ok ()) →
      opB (s + n) = .error e →
      runLoop opB clock s r =
        (progressLines clock s n ++ [Line.header (s + n)],
         sampleTimes clock s n, some e) := by
  induction n with
  | zero =>
      intro s r hr hok he
      obtain ⟨r1, rfl⟩ : ∃ r1, r = r1 + 1 := ⟨r - 1, by omega⟩
      have h0 : opB s = .error e := by simpa using he
      simp [runLoop, run_benchmark_once, h0, progressLines, sampleTimes]
  | succ n ih =>
      intro s r hr hok he
      obtain ⟨r1, rfl⟩ : ∃ r1, r = r1 + 1 := ⟨r - 1, by omega⟩
      have h0 : opB s = .ok () := by simpa using hok 0 (Nat.succ_pos n)
      have hok1 : ∀ i, i < n → opB (s + 1 + i) = .ok () := by
        intro i hi
        have h2 := hok (i + 1) (by omega)
        have harr : s + (i + 1) = s + 1 + i := by omega
        rwa [harr] at h2
      have he1 : opB (s + 1 + n) = .error e := by
        have harr : s + (n + 1) = s + 1 + n := by omega
        rwa [harr] at he
      have ih1 := ih (s + 1) r1 (by omega) hok1 he1
      simp only [runLoop, run_benchmark_once, h0, ih1]
      have harr : s + (n + 1) = s + 1 + n := by omega
      simp [progressLines, sampleTimes, harr]

/-- `load_config` on a mapping that does contain `bucket` (helper used by
the runner-level theorems). -/
theorem load_config_of_bucket (obj : List (String × String)) (b : String)
    (hb : obj.lookup "bucket" = some b) :
    load_config obj = .ok
      { region := get_or_else obj "region" "us-east-1", bucket := b,
        pfx := get_or_else obj "prefix" "",
        endpoint := get_or_else_none obj "endpoint" } := by
  simp [load_config, get_or_die, hb]

theorem run_benchmark_listall_fail (cfg : Config) (N : Int) (k : Nat)
    (opB : Nat → Except PyErr Unit) (clock : Nat → ℚ) (e : PyErr)
    (hk : k < N.toNat) (hok : ∀ i, i < k → opB i = .ok ())
    (he : opB k = .error e) :
    run_benchmark cfg "list_all" N opB clock =
      { lines := Line.banner "list_all" ::
          (progressLines clock 0 k ++ [Line.header k]),
        times := sampleTimes clock 0 k, fsCreated := true,
        err := some e } := by
  have hloop := runLoop_fail opB clock e k 0 N.toNat hk
      (by intro i hi; simpa using hok i hi) (by simpa using he)
  simp only [Nat.zero_add] at hloop
  have hl : operations.lookup "list_all" = some list_all := rfl
  simp only [run_benchmark, hl, hloop]

theorem exitCode_ne_zero (r : RunOut) (e : PyErr) (h : r.err = some e) :
    exitCode r ≠ 0 := by
  cases e <;> simp [exitCode, h]

/-- C5: if the operation succeeds on iterations `0..k-1` and raises on
iteration `k` (with `k < num_iters`), the run aborts at iteration `k`:
exactly the `k` samples of the completed iterations were collected (each
equal to end minus start of its invocation, in iteration order), the
output consists of the banner, the progress lines of iterations
`0..k-1` and then only the header of iteration `k` (no further iteration
begins),
no report block is printed, and the error propagates uncaught, giving a
non-zero exit status. -/
theorem run_aborts_on_operation_error
    (cfgDict : List (String × String)) (b : String)
    (hb : cfgDict.lookup "bucket" = some b)
    (N : Int) (k : Nat) (opB : Nat → Except PyErr Unit) (clock : Nat → ℚ)
    (e : PyErr) (hk : k < N.toNat)
    (hok : ∀ i, i < k → opB i = .ok ())
    (he : opB k = .error e) :
    (main cfgDict "list_all" N opB clock).err = some e ∧
    (main cfgDict "list_all" N opB clock).times =
      (List.range k).map (fun i => clock (2 * i + 1) - clock (2 * i)) ∧
    (main cfgDict "list_all" N opB clock).lines =
      Line.banner "list_all" ::
        (progressLines clock 0 k ++ [Line.header k]) ∧
    (main cfgDict "list_all" N opB clock).lines.filter
      (fun l => l.isReport) = [] ∧
    exitCode (main cfgDict "list_all" N opB clock) ≠ 0 := by
  have hcfg := load_config_of_bucket cfgDict b hb
  have hmain : main cfgDict "list_all" N opB clock =
      run_benchmark
        { region := get_or_else cfgDict "region" "us-east-1", bucket := b,
          pfx := get_or_else cfgDict "prefix" "",
          endpoint := get_or_else_none cfgDict "endpoint" }
        "list_all" N opB clock := by
    simp [main, argNames, hcfg]
  have hrb := run_benchmark_listall_fail
    { region := get_or_else cfgDict "region" "us-east-1", bucket := b,
      pfx := get_or_else cfgDict "prefix" "",
      endpoint := get_or_else_none cfgDict "endpoint" }
    N k opB clock e hk hok he
  rw [hmain, hrb]
  refine ⟨rfl, sampleTimes_zero clock k, rfl, ?_, ?_⟩
  · simp only [List.filter_cons, List.filter_append]
    simp [Line.isReport]
    exact fun a ha => progressLines_no_report clock k 0 a ha
  · exact exitCode_ne_zero _ e rfl

/-- Witness for C5: three requested iterations, the operation succeeds on
iteration 0 and raises on iteration 1. -/
theorem run_aborts_on_operation_error_witness :
    (main [("bucket", "b")] "list_all" 3
        (fun i => if i = 0 then .ok () else .error (.storageError "boom"))
        (fun n => (n : ℚ))).err = some (PyErr.storageError "boom") ∧
    (main [("bucket", "b")] "list_all" 3
        (fun i => if i = 0 then .ok () else .error (.storageError "boom"))
        (fun n => (n : ℚ))).times =
      (List.range 1).map
        (fun i => ((2 * i + 1 : ℕ) : ℚ) - ((2 * i : ℕ) : ℚ)) ∧
    (main [("bucket", "b")] "list_all" 3
        (fun i => if i = 0 then .ok () else .error (.storageError "boom"))
        (fun n => (n : ℚ))).lines =
      Line.banner "list_all" ::
        (progressLines (fun n => (n : ℚ)) 0 1 ++ [Line.header 1]) ∧
    (main [("bucket", "b")] "list_all" 3
        (fun i => if i = 0 then .ok () else .error (.storageError "boom"))
        (fun n => (n : ℚ))).lines.filter (fun l => l.isReport) = [] ∧
    exitCode (main [("bucket", "b")] "list_all" 3
        (fun i => if i = 0 then .ok () else .error (.storageError "boom"))
        (fun n => (n : ℚ))) ≠ 0 :=
  run_aborts_on_operation_error [("bucket", "b")] "b" rfl 3 1
    (fun i => if i = 0 then .ok () else .error (.storageError "boom"))
    (fun n => (n : ℚ)) (.storageError "boom") (by decide)
    (by intro i hi
        have hi0 : i = 0 := by omega
        simp [hi0])
    (by simp)

/-- `run_benchmark` when every requested iteration succeeds: the loop
runs all `num_iters.toNat` iterations and the report block is printed
after the progress lines (helper for the success-path theorems). -/
theorem run_benchmark_listall_ok (cfg : Config) (N : Int)
    (opB : Nat → Except PyErr Unit) (clock : Nat → ℚ)
    (hN : 0 < N.toNat) (hok : ∀ i, i < N.toNat → opB i = .ok ()) :
    ∃ st, calculate_stats (sampleTimes clock 0 N.toNat) = .ok st ∧
      run_benchmark cfg "list_all" N opB clock =
        { lines := Line.banner "list_all" ::
            (progressLines clock 0 N.toNat ++
              [Line.report "list_all" cfg.bucket cfg.pfx st]),
          times := sampleTimes clock 0 N.toNat, fsCreated := true,
          err := none } := by
  have hloop := runLoop_all_ok opB clock N.toNat 0
      (by intro i hi; simpa using hok i hi)
  obtain ⟨m, hm⟩ : ∃ m, N.toNat = m + 1 := ⟨N.toNat - 1, by omega⟩
  have hne : sampleTimes clock 0 N.toNat =
      (clock 1 - clock 0) :: sampleTimes clock 1 m := by
    rw [hm]; rfl
  obtain ⟨st, hst⟩ : ∃ st,
      calculate_stats (sampleTimes clock 0 N.toNat) = .ok st := by
    rw [hne, calculate_stats_cons]
    exact ⟨_, rfl⟩
  refine ⟨st, hst, ?_⟩
  have hl : operations.lookup "list_all" = some list_all := rfl
  simp only [run_benchmark, hl, hloop, print_results, hst]
  rfl

/-- C6 (evaluation of the code at `--num_iters 3` with an operation that
always succeeds): the runner executes exactly 3 iterations sequentially,
collects exactly the 3 samples end − start in iteration order, and the
output is the banner, then the progress lines, then exactly one report
block; but the progress output of each iteration is two lines — the header
is printed with `end=None`, which is the Python default newline — so there are
6 progress lines, not 3. -/
theorem three_iterations_output :
    (main [("bucket", "b")] "list_all" 3 (fun _ => .ok ())
        (fun n => (n : ℚ))).err = none ∧
    (main [("bucket", "b")] "list_all" 3 (fun _ => .ok ())
        (fun n => (n : ℚ))).times = [1, 1, 1] ∧
    (main [("bucket", "b")] "list_all" 3 (fun _ => .ok ())
        (fun n => (n : ℚ))).times.length = 3 ∧
    ((main [("bucket", "b")] "list_all" 3 (fun _ => .ok ())
        (fun n => (n : ℚ))).lines.filter (fun l => l.isProgress)).length = 6 ∧
    ((main [("bucket", "b")] "list_all" 3 (fun _ => .ok ())
        (fun n => (n : ℚ))).lines.filter (fun l => l.isReport)).length = 1 ∧
    ∃ st, (main [("bucket", "b")] "list_all" 3 (fun _ => .ok ())
        (fun n => (n : ℚ))).lines =
      [Line.banner "list_all",
       Line.header 0, Line.elapsed 1,
       Line.header 1, Line.elapsed 1,
       Line.header 2, Line.elapsed 1,
       Line.report "list_all" "b" "" st] := by
  obtain ⟨st, hst, hrb⟩ := run_benchmark_listall_ok
    { region := get_or_else [("bucket", "b")] "region" "us-east-1",
      bucket := "b", pfx := get_or_else [("bucket", "b")] "prefix" "",
      endpoint := get_or_else_none [("bucket", "b")] "endpoint" }
    3 (fun _ => .ok ()) (fun n => (n : ℚ)) (by decide) (fun i _ => rfl)
  have hmain : main [("bucket", "b")] "list_all" 3 (fun _ => .ok ())
      (fun n => (n : ℚ)) =
      run_benchmark
        { region := get_or_else [("bucket", "b")] "region" "us-east-1",
          bucket := "b", pfx := get_or_else [("bucket", "b")] "prefix" "",
          endpoint := get_or_else_none [("bucket", "b")] "endpoint" }
        "list_all" 3 (fun _ => .ok ()) (fun n => (n : ℚ)) := by
    simp [main, argNames, load_config_of_bucket [("bucket", "b")] "b" rfl]
  have htimes : sampleTimes (fun n => (n : ℚ)) 0 ((3 : Int).toNat) =
      [1, 1, 1] := by
    norm_num [sampleTimes]
  have hprog : progressLines (fun n => (n : ℚ)) 0 ((3 : Int).toNat) =
      [Line.header 0, Line.elapsed 1, Line.header 1, Line.elapsed 1,
       Line.header 2, Line.elapsed 1] := by
    norm_num [progressLines]
  rw [hmain, hrb, htimes, hprog]
  refine ⟨rfl, rfl, rfl, rfl, rfl, ⟨st, rfl⟩⟩

/-- C8: for every operation name that is not a registry key, argparse
rejects the invocation with a usage error and exit status 2: nothing is
printed, no sample is collected, the storage client factory is never
invoked, and the failure is the argument-validation error, not a
registry-lookup `KeyError`. -/
theorem unknown_operation_rejected (cfgDict : List (String × String))
    (op : String) (hop : op ∉ argNames) (N : Int)
    (opB : Nat → Except PyErr Unit) (clock : Nat → ℚ) :
    (main cfgDict op N opB clock).err = some (PyErr.argumentError op) ∧
    (main cfgDict op N opB clock).fsCreated = false ∧
    (main cfgDict op N opB clock).lines = [] ∧
    (main cfgDict op N opB clock).times = [] ∧
    (main cfgDict op N opB clock).err ≠ some (PyErr.keyError op) ∧
    exitCode (main cfgDict op N opB clock) = 2 := by
  have hm : main cfgDict op N opB clock =
      { lines := [], times := [], fsCreated := false,
        err := some (.argumentError op) } := by
    simp [main, hop]
  rw [hm]
  refine ⟨rfl, rfl, rfl, rfl, ?_, rfl⟩
  simp

/-- Witness for C8 at the unregistered operation name `delete_all`. -/
theorem unknown_operation_rejected_witness :
    (main [("bucket", "b")] "delete_all" 10 (fun _ => .ok ())
        (fun n => (n : ℚ))).err = some (PyErr.argumentError "delete_all") ∧
    (main [("bucket", "b")] "delete_all" 10 (fun _ => .ok ())
        (fun n => (n : ℚ))).fsCreated = false ∧
    (main [("bucket", "b")] "delete_all" 10 (fun _ => .ok ())
        (fun n => (n : ℚ))).lines = [] ∧
    (main [("bucket", "b")] "delete_all" 10 (fun _ => .ok ())
        (fun n => (n : ℚ))).times = [] ∧
    (main [("bucket", "b")] "delete_all" 10 (fun _ => .ok ())
        (fun n => (n : ℚ))).err ≠ some (PyErr.keyError "delete_all") ∧
    exitCode (main [("bucket", "b")] "delete_all" 10 (fun _ => .ok ())
        (fun n => (n : ℚ))) = 2 :=
  unknown_operation_rejected [("bucket", "b")] "delete_all" (by decide) 10
    (fun _ => .ok ()) (fun n => (n : ℚ))

end S3Bench
